import Mathlib

set_option maxRecDepth 16384

/-!
Verification of the pattern-based rewrite engine of the hive migration
scripts. The scripts operate on raw file text with Python `re.sub`; here the
text is a `List Char` and each regular expression is embedded as a
deterministic matcher (each pattern's quantified character classes are
disjoint from their followers, so Python's greedy backtracking search
reduces to maximal munch; the two places where a `\s*` overlaps a following
class, and the one genuinely backtracking group, are modelled explicitly).
`rsub` models `re.sub`: it scans left to right, replaces each leftmost
non-overlapping match and counts replacements.

Embedded functions:
 - `fix_logger_syntax_fn`     (scripts/fix-logger-syntax.py, fix_logger_syntax)
 - `remove_context_param`     (scripts/remove-logger-context-param.py)
 - `migrate_console_statements`, `add_logger_import`, `process_file_console`
                              (scripts/migrate-console-to-logger.py)
 - `migrate_auth_rewrite`     (migrate_auth.py, the five re.sub steps)
-/

/-- Shorthand: the character list of a string literal. -/
def lit (s : String) : List Char := s.toList

/-- The single-quote character (ASCII 39). -/
def sqChar : Char := Char.ofNat 39

/-- The backtick character (ASCII 96). -/
def btChar : Char := Char.ofNat 96

/-- Python regex `\s` / `str.strip` whitespace, ASCII range: space, tab,
newline, carriage return, vertical tab, form feed. -/
def isPyWs (c : Char) : Bool :=
  c == ' ' || c == '\t' || c == '\n' || c == '\r' || c == Char.ofNat 11 || c == Char.ofNat 12

/-- The regex class `["\']`: double or single quote. -/
def isQuote (c : Char) : Bool := c == '"' || c == sqChar

/-- The regex class `[^"\']`. -/
def isNotQuote (c : Char) : Bool := !(isQuote c)

/-- The regex class `[a-zA-Z_]`. -/
def isIdentStart (c : Char) : Bool := c.isAlpha || c == '_'

/-- The regex class `[a-zA-Z0-9_]`. -/
def isIdentChar (c : Char) : Bool := c.isAlphanum || c == '_'

/-- The regex class `[a-zA-Z0-9_\.]`. -/
def isIdentDotChar (c : Char) : Bool := c.isAlphanum || c == '_' || c == '.'

/-- Greedy `\s*`: drop the maximal whitespace run. -/
def skipWs (s : List Char) : List Char := s.dropWhile isPyWs

/-- Greedy `C*` with capture: the maximal run of class characters and the rest. -/
def takeRun (p : Char → Bool) (s : List Char) : List Char × List Char :=
  (s.takeWhile p, s.dropWhile p)

/-- A single character of a class. -/
def oneChar (p : Char → Bool) : List Char → Option (Char × List Char)
  | [] => none
  | c :: cs => if p c then some (c, cs) else none

/-- Greedy `C+` with capture: fails on an empty run. -/
def run1 (p : Char → Bool) (s : List Char) : Option (List Char × List Char) :=
  let r := s.takeWhile p
  if r.isEmpty then none else some (r, s.dropWhile p)

/-- Boolean test that `l` is a leading segment of `s`. -/
def litPre : List Char → List Char → Bool
  | [], _ => true
  | _ :: _, [] => false
  | a :: as, b :: bs => a == b && litPre as bs

/-- Consume a literal, or fail. -/
def dropLit (l s : List Char) : Option (List Char) :=
  if litPre l s then some (s.drop l.length) else none

/-- An alternation of literals, tried left to right (the alternatives of
these patterns are never prefixes of one another, so order is immaterial). -/
def tryLits : List (List Char) → List Char → Option (List Char × List Char)
  | [], _ => none
  | l :: ls, s =>
    match dropLit l s with
    | some r => some (l, r)
    | none => tryLits ls s

/-- Python `str.strip()`. -/
def pyStrip (s : List Char) : List Char :=
  ((s.dropWhile isPyWs).reverse.dropWhile isPyWs).reverse

/-- Python `list.insert(n, x)`: clamps the index like the source does. -/
def pyInsert (l : List (List Char)) (n : Nat) (x : List Char) : List (List Char) :=
  l.take n ++ x :: l.drop n

/-- Python `content.split(chr(10))`. -/
def splitLines (content : List Char) : List (List Char) := content.splitOn '\n'

/-- Python `"\n".join(lines)`. -/
def joinLines : List (List Char) → List Char
  | [] => []
  | [l] => l
  | l :: l2 :: ls => l ++ '\n' :: joinLines (l2 :: ls)

/-- Substring test, Python `sub in s`. -/
def containsSub (s sub : List Char) : Bool :=
  match s with
  | [] => litPre sub []
  | c :: t => litPre sub (c :: t) || containsSub t sub

/-- Count of non-overlapping occurrences of `sub` in `s`, scanning left to
right (used to exhibit duplicated import lines); `fuel` bounds the recursion
and callers pass the length of `s`, which suffices since every step consumes
at least one character. -/
def countSubAux (sub : List Char) : Nat → List Char → Nat
  | _, [] => 0
  | 0, _ => 0
  | fuel + 1, c :: t =>
    if litPre sub (c :: t) && !sub.isEmpty then
      1 + countSubAux sub fuel ((c :: t).drop sub.length)
    else
      countSubAux sub fuel t

/-- Count of non-overlapping occurrences of `sub` in `s`. -/
def countSub (s sub : List Char) : Nat := countSubAux sub s.length s

/-- Greedy `\s*(C+)` where whitespace belongs to the class `C` and the
follower does not: Python first maximizes the `\s*`, backtracking it only as
far as needed to leave the captured `C+` nonempty. Returns the capture and
the rest. -/
def wsThenRun1 (p : Char → Bool) (s : List Char) : Option (List Char × List Char) :=
  let r := s.takeWhile p
  if r.isEmpty then none
  else
    let w := (r.takeWhile isPyWs).length
    some (r.drop (min w (r.length - 1)), s.dropWhile p)

/-- One pass of Python `re.sub` driven by a matcher `m`: at each position, if
`m` matches (returning the replacement text and the rest after the match),
emit the replacement, count it, and resume after the match; otherwise copy
one character. `fuel` bounds the recursion; callers pass the input length,
which suffices because every matcher consumes at least one character (the
guard makes a non-consuming match behave as a non-match). -/
def rsubAux (m : List Char → Option (List Char × List Char)) :
    Nat → List Char → List Char × Nat
  | _, [] => ([], 0)
  | 0, s => (s, 0)
  | fuel + 1, c :: cs =>
    match m (c :: cs) with
    | some (r, rest) =>
      if rest.length ≤ cs.length then
        let p := rsubAux m fuel rest
        (r ++ p.1, p.2 + 1)
      else
        let p := rsubAux m fuel cs
        (c :: p.1, p.2)
    | none =>
      let p := rsubAux m fuel cs
      (c :: p.1, p.2)

/-- `re.sub(pattern, repl, s)` together with the number of replacements. -/
def rsub (m : List Char → Option (List Char × List Char)) (s : List Char) :
    List Char × Nat :=
  rsubAux m s.length s

/-- The alternation `(error|warn|info|debug)`. -/
def lvl4 : List (List Char) := [lit "error", lit "warn", lit "info", lit "debug"]

/-- The alternation `(log|error|warn|info|debug)`. -/
def lvl5 : List (List Char) := [lit "log", lit "error", lit "warn", lit "info", lit "debug"]

/-- The scripts' shared callback step `if level == "log": level = "debug"`. -/
def pyLevel (lvl : List Char) : List Char :=
  if lvl = lit "log" then lit "debug" else lvl

/-! ## migrate-console-to-logger.py : migrate_console_statements -/

/-- Pattern 1, `console\.(error|warn|info|debug)\s*\(\s*["\']([^"\']+)["\']\s*\)`
with replacement `logger.{level}("{message}", "{context}")`. -/
def mcPat1 (ctx s : List Char) : Option (List Char × List Char) := do
  let s1 ← dropLit (lit "console.") s
  let (lvl, s2) ← tryLits lvl4 s1
  let s3 ← dropLit (lit "(") (skipWs s2)
  let (_, s4) ← oneChar isQuote (skipWs s3)
  let (msg, s5) ← run1 isNotQuote s4
  let (_, s6) ← oneChar isQuote s5
  let s7 ← dropLit (lit ")") (skipWs s6)
  pure (lit "logger." ++ pyLevel lvl ++ lit "(\"" ++ msg ++ lit "\", \"" ++ ctx ++ lit "\")", s7)

/-- Pattern 2,
`console\.(log|error|warn|info|debug)\s*\(\s*["\']([^"\']+)["\']\s*,\s*([^)]+)\)`
with replacement `logger.{level}("{message}", "{context}", { {data} })`,
where data is the third capture stripped. -/
def mcPat2 (ctx s : List Char) : Option (List Char × List Char) := do
  let s1 ← dropLit (lit "console.") s
  let (lvl, s2) ← tryLits lvl5 s1
  let s3 ← dropLit (lit "(") (skipWs s2)
  let (_, s4) ← oneChar isQuote (skipWs s3)
  let (msg, s5) ← run1 isNotQuote s4
  let (_, s6) ← oneChar isQuote s5
  let s7 ← dropLit (lit ",") (skipWs s6)
  let (g3, s8) ← wsThenRun1 (fun c => !(c == ')')) s7
  let s9 ← dropLit (lit ")") s8
  pure (lit "logger." ++ pyLevel lvl ++ lit "(\"" ++ msg ++ lit "\", \"" ++ ctx
    ++ lit "\", \x7b " ++ pyStrip g3 ++ lit " \x7d)", s9)

/-- Pattern 3,
`console\.(log|error|warn|info|debug)\s*\(\s*([a-zA-Z_][a-zA-Z0-9_\.]*)\s*\)`
with replacement `logger.{level}("Debug output", "{context}", { {var} })`. -/
def mcPat3 (ctx s : List Char) : Option (List Char × List Char) := do
  let s1 ← dropLit (lit "console.") s
  let (lvl, s2) ← tryLits lvl5 s1
  let s3 ← dropLit (lit "(") (skipWs s2)
  let (c0, s4) ← oneChar isIdentStart (skipWs s3)
  let (r0, s5) := takeRun isIdentDotChar s4
  let s6 ← dropLit (lit ")") (skipWs s5)
  pure (lit "logger." ++ pyLevel lvl ++ lit "(\"Debug output\", \"" ++ ctx
    ++ lit "\", \x7b " ++ c0 :: r0 ++ lit " \x7d)", s6)

/-- Pattern 4, template literals:
`console\.(log|error|warn|info|debug)\s*\(\s*BT([^BT]+)BT\s*\)` where BT is a
backtick; replacement `logger.{level}(BT{message}BT, "{context}")`. -/
def mcPat4 (ctx s : List Char) : Option (List Char × List Char) := do
  let s1 ← dropLit (lit "console.") s
  let (lvl, s2) ← tryLits lvl5 s1
  let s3 ← dropLit (lit "(") (skipWs s2)
  let (_, s4) ← oneChar (fun c => c == btChar) (skipWs s3)
  let (msg, s5) ← run1 (fun c => !(c == btChar)) s4
  let (_, s6) ← oneChar (fun c => c == btChar) s5
  let s7 ← dropLit (lit ")") (skipWs s6)
  pure (lit "logger." ++ pyLevel lvl ++ lit "(" ++ btChar :: msg
    ++ btChar :: (lit ", \"" ++ ctx ++ lit "\")"), s7)

/-- `migrate_console_statements(content, context)`: the four `re.sub` passes
in source order, with the shared replacement counter. -/
def migrate_console_statements (content ctx : List Char) : List Char × Nat :=
  let r1 := rsub (mcPat1 ctx) content
  let r2 := rsub (mcPat2 ctx) r1.1
  let r3 := rsub (mcPat3 ctx) r2.1
  let r4 := rsub (mcPat4 ctx) r3.1
  (r4.1, ((r1.2 + r2.2) + r3.2) + r4.2)

/-! ## migrate-console-to-logger.py : add_logger_import and process_file -/

/-- The guard `"from " in content and "logger" in content` of
`add_logger_import`. -/
def hasLoggerImportMarker (content : List Char) : Bool :=
  containsSub content (lit "from ") && containsSub content (lit "logger")

/-- The generated statement `import { logger } from "{import_path}";`. -/
def importStmtFor (importPath : List Char) : List Char :=
  lit "import { logger } from \"" ++ importPath ++ lit "\";"

/-- Test used to find the last import line: `line.strip().startswith("import ")`. -/
def isImportLine (l : List Char) : Bool := litPre (lit "import ") (pyStrip l)

/-- Index of the last line whose stripped text starts with `import `. -/
def lastImportIdx (lines : List (List Char)) : Option Nat :=
  (((lines.enum).filter (fun p => isImportLine p.2)).map (fun p => p.1)).getLast?

/-- A line that is non-blank and starts with neither `//` nor `/*`. -/
def isCodeLine (l : List Char) : Bool :=
  let t := pyStrip l
  !t.isEmpty && !(litPre (lit "//") t) && !(litPre (lit "/*") t)

/-- Index of the first code line, or 0 when there is none (the Python loop
leaves `insert_idx = 0` when it never breaks). -/
def firstCodeIdx (lines : List (List Char)) : Nat :=
  (lines.findIdx? isCodeLine).getD 0

/-- `add_logger_import(content, import_path)`: return unchanged when the file
contains both `from ` and `logger` anywhere; otherwise split into lines and
insert the generated import after the last import line, or at the first code
line when there are no import lines. -/
def add_logger_import (content importPath : List Char) : List Char :=
  if hasLoggerImportMarker content then content
  else
    let lines := splitLines content
    let stmt := importStmtFor importPath
    match lastImportIdx lines with
    | some i => joinLines (pyInsert lines (i + 1) stmt)
    | none => joinLines (pyInsert lines (firstCodeIdx lines) stmt)

/-- The constant `get_import_path` returns for every file. -/
def loggerPath : List Char := lit "@/lib/logger"

/-- `process_file(file_path, root_dir)` of migrate-console-to-logger.py on
one file's text with its derived context: adds the logger import, migrates
console statements, and reports `(changed, replacements)` where `changed`
compares the final text with the original. -/
def process_file_console (content ctx : List Char) : Bool × Nat :=
  let c1 := add_logger_import content loggerPath
  let r := migrate_console_statements c1 ctx
  if r.1 = content then (false, 0) else (true, r.2)

/-! ## remove-logger-context-param.py : remove_context_param -/

/-- Pattern 1,
`(logger\.(error|warn|info|debug)\([^,]+),\s*["\'][^"\']+["\']\s*,\s*(\{[^}]+\})\)`
with replacement `{g1}, {g3})`. -/
def rcPat1 (s : List Char) : Option (List Char × List Char) := do
  let s1 ← dropLit (lit "logger.") s
  let (m, s2) ← tryLits lvl4 s1
  let s3 ← dropLit (lit "(") s2
  let (a1, s4) ← run1 (fun c => !(c == ',')) s3
  let s5 ← dropLit (lit ",") s4
  let (_, s6) ← oneChar isQuote (skipWs s5)
  let (_, s7) ← run1 isNotQuote s6
  let (_, s8) ← oneChar isQuote s7
  let s9 ← dropLit (lit ",") (skipWs s8)
  let s10 ← dropLit (lit "\x7b") (skipWs s9)
  let (inner, s11) ← run1 (fun c => !(c == '}')) s10
  let s12 ← dropLit (lit "\x7d") s11
  let s13 ← dropLit (lit ")") s12
  pure (lit "logger." ++ m ++ lit "(" ++ a1 ++ lit ", \x7b" ++ inner ++ lit "\x7d)", s13)

/-- Pattern 2,
`(logger\.(error|warn|info|debug)\([^,]+),\s*["\'][^"\']+["\']\s*\)` with
replacement `{g1})`. -/
def rcPat2 (s : List Char) : Option (List Char × List Char) := do
  let s1 ← dropLit (lit "logger.") s
  let (m, s2) ← tryLits lvl4 s1
  let s3 ← dropLit (lit "(") s2
  let (a1, s4) ← run1 (fun c => !(c == ',')) s3
  let s5 ← dropLit (lit ",") s4
  let (_, s6) ← oneChar isQuote (skipWs s5)
  let (_, s7) ← run1 isNotQuote s6
  let (_, s8) ← oneChar isQuote s7
  let s9 ← dropLit (lit ")") (skipWs s8)
  pure (lit "logger." ++ m ++ lit "(" ++ a1 ++ lit ")", s9)

/-- `remove_context_param(content)`: the two `re.sub` passes in source order
with the shared counter. -/
def remove_context_param (content : List Char) : List Char × Nat :=
  let r1 := rsub rcPat1 content
  let r2 := rsub rcPat2 r1.1
  (r2.1, r1.2 + r2.2)

/-! ## fix-logger-syntax.py : the function fix_logger_syntax -/

/-- The shared leading group `(logger\.(error|warn|info|debug)\([^,]+,\s*)`:
returns the method, the first argument, the trailing whitespace of the group
and the rest. -/
def flPre (s : List Char) :
    Option (List Char × (List Char × (List Char × List Char))) := do
  let s1 ← dropLit (lit "logger.") s
  let (m, s2) ← tryLits lvl4 s1
  let s3 ← dropLit (lit "(") s2
  let (a1, s4) ← run1 (fun c => !(c == ',')) s3
  let s5 ← dropLit (lit ",") s4
  let (w, s6) := takeRun isPyWs s5
  pure (m, a1, w, s6)

/-- Pattern 1, `(...group...)\{\s*\{([^}]+)\}\s*,([^}]+)\}` with replacement
`{g1}{ {g3}, {g4} }`. -/
def flPat1 (s : List Char) : Option (List Char × List Char) := do
  let (m, a1, w, t0) ← flPre s
  let t1 ← dropLit (lit "\x7b") t0
  let t2 ← dropLit (lit "\x7b") (skipWs t1)
  let (g3, t3) ← run1 (fun c => !(c == '}')) t2
  let t4 ← dropLit (lit "\x7d") t3
  let t5 ← dropLit (lit ",") (skipWs t4)
  let (g4, t6) ← run1 (fun c => !(c == '}')) t5
  let t7 ← dropLit (lit "\x7d") t6
  pure (lit "logger." ++ m ++ lit "(" ++ a1 ++ lit "," ++ w
    ++ lit "\x7b " ++ g3 ++ lit ", " ++ g4 ++ lit " \x7d", t7)

/-- Pattern 2,
`(...group...)\{\s*([a-zA-Z_][a-zA-Z0-9_]*)\.([a-zA-Z_][a-zA-Z0-9_]*)\s*\}`
with replacement `{g1}{ {prop}: {ident}.{prop} }`. -/
def flPat2 (s : List Char) : Option (List Char × List Char) := do
  let (m, a1, w, t0) ← flPre s
  let t1 ← dropLit (lit "\x7b") t0
  let (c1, u1) ← oneChar isIdentStart (skipWs t1)
  let (r1, u2) := takeRun isIdentChar u1
  let u3 ← dropLit (lit ".") u2
  let (c2, u4) ← oneChar isIdentStart u3
  let (r2, u5) := takeRun isIdentChar u4
  let u6 ← dropLit (lit "\x7d") (skipWs u5)
  pure (lit "logger." ++ m ++ lit "(" ++ a1 ++ lit "," ++ w
    ++ lit "\x7b " ++ (c2 :: r2) ++ lit ": " ++ (c1 :: r1) ++ lit "."
    ++ (c2 :: r2) ++ lit " \x7d", u6)

/-- Pattern 3,
`(...group...)\{\s*([a-zA-Z_][a-zA-Z0-9_]*)\.([a-zA-Z0-9_]+\([^)]*\))\s*\}`
with replacement `{g1}{ {var}: {var}.{call} }`. -/
def flPat3 (s : List Char) : Option (List Char × List Char) := do
  let (m, a1, w, t0) ← flPre s
  let t1 ← dropLit (lit "\x7b") t0
  let (c1, u1) ← oneChar isIdentStart (skipWs t1)
  let (r1, u2) := takeRun isIdentChar u1
  let u3 ← dropLit (lit ".") u2
  let (nm, u4) ← run1 isIdentChar u3
  let u5 ← dropLit (lit "(") u4
  let (inner, u6) := takeRun (fun c => !(c == ')')) u5
  let u7 ← dropLit (lit ")") u6
  let u8 ← dropLit (lit "\x7d") (skipWs u7)
  pure (lit "logger." ++ m ++ lit "(" ++ a1 ++ lit "," ++ w
    ++ lit "\x7b " ++ (c1 :: r1) ++ lit ": " ++ (c1 :: r1) ++ lit "."
    ++ nm ++ lit "(" ++ inner ++ lit ") \x7d", u8)

/-- The function fix_logger_syntax(content): the three `re.sub` passes in source order
with the shared counter. -/
def fix_logger_syntax_fn (content : List Char) : List Char × Nat :=
  let r1 := rsub flPat1 content
  let r2 := rsub flPat2 r1.1
  let r3 := rsub flPat3 r2.1
  (r3.1, (r1.2 + r2.2) + r3.2)

/-! ## migrate_auth.py : migrate_file's five re.sub steps -/

/-- After the literal `next-auth`: the optional group `(?:/next)?` followed
by `["\']`, with Python's backtracking (prefer taking `/next`, fall back
when the quote then fails). -/
def maOptNext (s : List Char) : Option (List Char) :=
  match dropLit (lit "/next") s with
  | some r =>
    match oneChar isQuote r with
    | some (_, r2) => some r2
    | none => (oneChar isQuote s).map (fun p => p.2)
  | none => (oneChar isQuote s).map (fun p => p.2)

/-- Optional literal `X?`: consume it when present. -/
def maOpt (l s : List Char) : List Char :=
  match dropLit l s with
  | some r => r
  | none => s

/-- Step 1, `import\s*{\s*getServerSession\s*}\s*from\s*["\']next-auth(?:/next)?["\'];?`
replaced by `import { auth } from "@/lib/auth";`. -/
def maPat1 (s : List Char) : Option (List Char × List Char) := do
  let s1 ← dropLit (lit "import") s
  let s2 ← dropLit (lit "\x7b") (skipWs s1)
  let s3 ← dropLit (lit "getServerSession") (skipWs s2)
  let s4 ← dropLit (lit "\x7d") (skipWs s3)
  let s5 ← dropLit (lit "from") (skipWs s4)
  let (_, s6) ← oneChar isQuote (skipWs s5)
  let s7 ← dropLit (lit "next-auth") s6
  let s8 ← maOptNext s7
  pure (lit "import { auth } from \"@/lib/auth\";", maOpt (lit ";") s8)

/-- Step 2, `import\s*{\s*authOptions\s*}\s*from\s*["\']@/lib/auth/nextauth["\'];?\s*\n?`
replaced by the empty string (the trailing `\s*` swallows the newline). -/
def maPat2 (s : List Char) : Option (List Char × List Char) := do
  let s1 ← dropLit (lit "import") s
  let s2 ← dropLit (lit "\x7b") (skipWs s1)
  let s3 ← dropLit (lit "authOptions") (skipWs s2)
  let s4 ← dropLit (lit "\x7d") (skipWs s3)
  let s5 ← dropLit (lit "from") (skipWs s4)
  let (_, s6) ← oneChar isQuote (skipWs s5)
  let s7 ← dropLit (lit "@/lib/auth/nextauth") s6
  let (_, s8) ← oneChar isQuote s7
  pure ([], skipWs (maOpt (lit ";") s8))

/-- Step 3, `getServerSession\s*\(\s*authOptions\s*\)` replaced by `auth()`. -/
def maPat3 (s : List Char) : Option (List Char × List Char) := do
  let s1 ← dropLit (lit "getServerSession") s
  let s2 ← dropLit (lit "(") (skipWs s1)
  let s3 ← dropLit (lit "authOptions") (skipWs s2)
  let s4 ← dropLit (lit ")") (skipWs s3)
  pure (lit "auth()", s4)

/-- Step 4, `import\s*{\s*authOptions\s*,\s*` replaced by `import { `. -/
def maPat4 (s : List Char) : Option (List Char × List Char) := do
  let s1 ← dropLit (lit "import") s
  let s2 ← dropLit (lit "\x7b") (skipWs s1)
  let s3 ← dropLit (lit "authOptions") (skipWs s2)
  let s4 ← dropLit (lit ",") (skipWs s3)
  pure (lit "import \x7b ", skipWs s4)

/-- Exact test that a tail reads `,\s*authOptions\s*` to its end. -/
def ma5TailOk (t : List Char) : Bool :=
  match t with
  | c :: r =>
    if c = ',' then
      match dropLit (lit "authOptions") (skipWs r) with
      | some r2 => decide (skipWs r2 = [])
      | none => false
    else false
  | [] => false

/-- The largest split index of the brace-free region `W` whose tail matches
`,\s*authOptions\s*` (Python's greedy backtracking of `([^}]+)`). -/
def ma5FindI (W : List Char) : Option Nat :=
  (List.range (W.length + 1)).reverse.find? (fun i => decide (1 ≤ i) && ma5TailOk (W.drop i))

/-- Step 5, `import\s*{\s*([^}]+),\s*authOptions\s*}` replaced by
`import { {g1} }`. The `\s*` before the group and the group itself overlap
on whitespace; Python maximizes the `\s*` first, so after the largest valid
split index is found, the capture keeps only what the maximal whitespace run
does not claim (leaving the capture nonempty). -/
def maPat5 (s : List Char) : Option (List Char × List Char) := do
  let s1 ← dropLit (lit "import") s
  let s2 ← dropLit (lit "\x7b") (skipWs s1)
  let W := s2.takeWhile (fun c => !(c == '}'))
  let rest1 := s2.drop W.length
  let s3 ← dropLit (lit "\x7d") rest1
  match ma5FindI W with
  | none => none
  | some i =>
    let w := (W.takeWhile isPyWs).length
    let p := min w (i - 1)
    pure (lit "import \x7b " ++ (W.take i).drop p ++ lit " \x7d", s3)

/-- `migrate_file`'s pure text transformation: the five `re.sub` steps in
source order (the file is written back only when the text changed). -/
def migrate_auth_rewrite (content : List Char) : List Char :=
  (rsub maPat5 (rsub maPat4 (rsub maPat3 (rsub maPat2 (rsub maPat1 content).1).1).1).1).1

/-! ## Concrete texts used by the claims -/

/-- Spec scenario 5 text. -/
def scenRemoveCtx : List Char := lit "logger.warn(\"msg\", \"Context\", { data })"

/-- Spec scenario 3 text. -/
def scenPropAccess : List Char := lit "logger.error(\"msg\", { data.error })"

/-- A single-string console.error call. -/
def scenConsoleErr : List Char := lit "console.error(\"hello\")"

/-- A logger call nested as the first argument of another logger call. -/
def nestedLoggerCall : List Char := lit "logger.error(logger.error(\"a\", \"b\"), \"c\")"

/-- A file that imports getServerSession and authOptions and still references
authOptions outside the rewritten call. -/
def authInputWithRef : List Char :=
  lit "import { getServerSession } from \"next-auth\";\nimport { authOptions } from \"@/lib/auth/nextauth\";\nconst opts = authOptions;\nconst s = getServerSession(authOptions);"

/-- A file whose only content besides the authOptions import is a remaining
reference to authOptions. -/
def authInputOnlyRef : List Char :=
  lit "import { authOptions } from \"@/lib/auth/nextauth\";\nexport const o = authOptions;"

/-- A file with an existing logger import written without a space after
`from` (legal TypeScript), which the substring check does not see. -/
def noSpaceLoggerImport : List Char :=
  lit "import { logger } from\"@/lib/logger\";\nconsole.error(\"x\")"

/-- A file containing `from ` and the identifier `logger` but no logger import. -/
def mereOccurrenceInput : List Char := lit "import { x } from \"y\";\nconst logger = 1;"

/-! ## Helper lemmas -/

theorem litPre_self_append : ∀ (a t : List Char), litPre a (a ++ t) = true := by
  intro a
  induction a with
  | nil => intro t; rfl
  | cons c cs ih => intro t; simp [litPre, ih]

theorem eq_append_of_litPre : ∀ (a b : List Char), litPre a b = true → ∃ t, b = a ++ t := by
  intro a
  induction a with
  | nil => intro b _; exact ⟨b, rfl⟩
  | cons c cs ih =>
    intro b h
    cases b with
    | nil => simp [litPre] at h
    | cons d ds =>
      simp only [litPre, Bool.and_eq_true, beq_iff_eq] at h
      obtain ⟨t, ht⟩ := ih ds h.2
      exact ⟨t, by simp [h.1, ht]⟩

theorem containsSub_of_infixP {a s : List Char} (h : a <:+: s) : containsSub s a = true := by
  obtain ⟨pre, post, hp⟩ := h
  induction pre generalizing s with
  | nil =>
    simp only [List.nil_append] at hp
    cases hs : s with
    | nil =>
      cases a with
      | nil => rfl
      | cons x xs => simp [hs] at hp
    | cons c t =>
      rw [hs] at hp
      simp only [containsSub]
      rw [← hp]
      simp [litPre_self_append]
  | cons p ps ih =>
    cases s with
    | nil => simp at hp
    | cons c t =>
      simp only [List.cons_append, List.cons.injEq] at hp
      simp only [containsSub, Bool.or_eq_true]
      exact Or.inr (ih hp.2)

theorem infix_of_containsSub : ∀ {s a : List Char}, containsSub s a = true → a <:+: s := by
  intro s
  induction s with
  | nil =>
    intro a h
    simp only [containsSub] at h
    cases a with
    | nil => exact List.infix_rfl
    | cons x xs => simp [litPre] at h
  | cons c t ih =>
    intro a h
    simp only [containsSub, Bool.or_eq_true] at h
    cases h with
    | inl h =>
      obtain ⟨u, hu⟩ := eq_append_of_litPre a (c :: t) h
      exact ⟨[], u, by simp [hu]⟩
    | inr h =>
      obtain ⟨pre, post, hp⟩ := ih h
      exact ⟨c :: pre, post, by simp [← hp]⟩

theorem infix_joinLines_of_mem :
    ∀ (L : List (List Char)) (a : List Char), a ∈ L → a <:+: joinLines L := by
  intro L
  induction L with
  | nil => intro a h; simp at h
  | cons l tail ih =>
    intro a h
    cases tail with
    | nil =>
      simp only [List.mem_singleton] at h
      simp [joinLines, h, List.infix_rfl]
    | cons l2 ls =>
      rcases List.mem_cons.mp h with h1 | h2
      · exact ⟨[], '\n' :: joinLines (l2 :: ls), by simp [joinLines, h1]⟩
      · obtain ⟨pre, post, hp⟩ := ih a h2
        exact ⟨l ++ '\n' :: pre, post, by simp [joinLines, ← hp]⟩

theorem mem_pyInsert (l : List (List Char)) (n : Nat) (x : List Char) :
    x ∈ pyInsert l n x := by
  simp [pyInsert]

theorem fromMarker_infix_stmt (ip : List Char) : lit "from " <:+: importStmtFor ip := by
  refine ⟨lit "import { logger } ", lit "\"" ++ ip ++ lit "\";", ?_⟩
  have h : lit "import { logger } " ++ lit "from " ++ lit "\"" = lit "import { logger } from \"" := by decide
  simp only [importStmtFor, ← h, List.append_assoc]

theorem loggerMarker_infix_stmt (ip : List Char) : lit "logger" <:+: importStmtFor ip := by
  refine ⟨lit "import \x7b ", lit " \x7d from \"" ++ ip ++ lit "\";", ?_⟩
  have h : lit "import \x7b " ++ lit "logger" ++ lit " \x7d from \"" = lit "import { logger } from \"" := by decide
  simp only [importStmtFor, ← h, List.append_assoc]

theorem marker_of_stmt_sub {c : List Char} (ip : List Char)
    (h : importStmtFor ip <:+: c) : hasLoggerImportMarker c = true := by
  have hf := containsSub_of_infixP ((fromMarker_infix_stmt ip).trans h)
  have hl := containsSub_of_infixP ((loggerMarker_infix_stmt ip).trans h)
  simp [hasLoggerImportMarker, hf, hl]

theorem add_logger_import_of_marker {c ip : List Char}
    (h : hasLoggerImportMarker c = true) : add_logger_import c ip = c := by
  simp [add_logger_import, h]

theorem marker_of_add_logger_import {c ip : List Char}
    (h : hasLoggerImportMarker c = false) :
    hasLoggerImportMarker (add_logger_import c ip) = true := by
  unfold add_logger_import
  rw [h]
  simp only [Bool.false_eq_true, if_false]
  cases hidx : lastImportIdx (splitLines c) with
  | none =>
    exact marker_of_stmt_sub ip
      (infix_joinLines_of_mem _ _ (mem_pyInsert (splitLines c) (firstCodeIdx (splitLines c)) _))
  | some i =>
    exact marker_of_stmt_sub ip
      (infix_joinLines_of_mem _ _ (mem_pyInsert (splitLines c) (i + 1) _))

theorem rsubAux_count_zero (m : List Char → Option (List Char × List Char)) :
    ∀ (fuel : Nat) (s : List Char), (rsubAux m fuel s).2 = 0 → (rsubAux m fuel s).1 = s := by
  intro fuel
  induction fuel with
  | zero =>
    intro s _
    cases s <;> rfl
  | succ n ih =>
    intro s h
    cases s with
    | nil => rfl
    | cons c cs =>
      simp only [rsubAux] at h ⊢
      cases hm : m (c :: cs) with
      | none =>
        simp only [hm] at h ⊢
        simp [ih cs h]
      | some pr =>
        obtain ⟨r, rest⟩ := pr
        simp only [hm] at h ⊢
        by_cases hg : rest.length ≤ cs.length
        · simp only [if_pos hg] at h
          omega
        · simp only [if_neg hg] at h ⊢
          simp [ih cs h]

theorem rsub_count_zero (m : List Char → Option (List Char × List Char))
    (s : List Char) (h : (rsub m s).2 = 0) : (rsub m s).1 = s :=
  rsubAux_count_zero m s.length s h

theorem migrate_console_count_zero (content ctx : List Char)
    (h : (migrate_console_statements content ctx).2 = 0) :
    (migrate_console_statements content ctx).1 = content := by
  simp only [migrate_console_statements] at h ⊢
  have h1 : (rsub (mcPat1 ctx) content).2 = 0 := by omega
  have e1 := rsub_count_zero _ _ h1
  rw [e1] at h ⊢
  have h2 : (rsub (mcPat2 ctx) content).2 = 0 := by omega
  have e2 := rsub_count_zero _ _ h2
  rw [e2] at h ⊢
  have h3 : (rsub (mcPat3 ctx) content).2 = 0 := by omega
  have e3 := rsub_count_zero _ _ h3
  rw [e3] at h ⊢
  have h4 : (rsub (mcPat4 ctx) content).2 = 0 := by omega
  exact rsub_count_zero _ _ h4

theorem fix_logger_count_zero (content : List Char)
    (h : (fix_logger_syntax_fn content).2 = 0) :
    (fix_logger_syntax_fn content).1 = content := by
  simp only [fix_logger_syntax_fn] at h ⊢
  have h1 : (rsub flPat1 content).2 = 0 := by omega
  have e1 := rsub_count_zero _ _ h1
  rw [e1] at h ⊢
  have h2 : (rsub flPat2 content).2 = 0 := by omega
  have e2 := rsub_count_zero _ _ h2
  rw [e2] at h ⊢
  have h3 : (rsub flPat3 content).2 = 0 := by omega
  exact rsub_count_zero _ _ h3

/-! ## Claim theorems -/

/-- Claim C1 counterexample: the context-parameter removal rule is not
idempotent. On a logger call nested as the first argument of another logger
call, the first application strips the inner call's second argument and the
second application strips the outer call's — two different results, so
apply(R, apply(R, T)) differs from apply(R, T). -/
theorem c1_counterexample :
    (remove_context_param ((remove_context_param nestedLoggerCall).1)).1
      ≠ (remove_context_param nestedLoggerCall).1 := by decide

/-- Claim C1, amended: each rewrite rule is idempotent on the spec's literal
single-call scenarios (re-applying it to its own output there changes
nothing and reports zero replacements), but not on all text — the
context-parameter removal rewrites its own output when a logger call is
nested inside another (see the counterexample). -/
theorem c1_rules_idempotent_on_scenarios :
    (remove_context_param ((remove_context_param scenRemoveCtx).1)).1
        = (remove_context_param scenRemoveCtx).1 ∧
      (remove_context_param ((remove_context_param scenRemoveCtx).1)).2 = 0 ∧
      (fix_logger_syntax_fn ((fix_logger_syntax_fn scenPropAccess).1)).1
        = (fix_logger_syntax_fn scenPropAccess).1 ∧
      (fix_logger_syntax_fn ((fix_logger_syntax_fn scenPropAccess).1)).2 = 0 ∧
      (migrate_console_statements ((migrate_console_statements scenConsoleErr (lit "ctx")).1)
          (lit "ctx")).1
        = (migrate_console_statements scenConsoleErr (lit "ctx")).1 ∧
      (migrate_console_statements ((migrate_console_statements scenConsoleErr (lit "ctx")).1)
          (lit "ctx")).2 = 0 := by decide

/-- Claim C2 counterexample: a file whose console statement matches no
rewrite pattern and which lacks a logger import is still changed — the
unconditional import insertion flips `changed` to true while
`replacementCount` stays 0, refuting the stated iff. -/
theorem c2_counterexample :
    process_file_console (lit "console.error(foo())") (lit "ctx") = (true, 0) := by decide

/-- Claim C2, amended: for a file already containing a logger import marker
(the substrings `from ` and `logger`), `replacementCount = 0` implies
`changed = false`; the iff as stated fails only for files lacking the
marker, where the import insertion alone makes `changed` true with zero
replacements. -/
theorem c2_count_zero_marker_unchanged (content ctx : List Char)
    (h1 : hasLoggerImportMarker content = true)
    (h2 : (process_file_console content ctx).2 = 0) :
    (process_file_console content ctx).1 = false := by
  have hadd : add_logger_import content loggerPath = content :=
    add_logger_import_of_marker h1
  simp only [process_file_console, hadd] at h2 ⊢
  by_cases he : (migrate_console_statements content ctx).1 = content
  · simp [he]
  · simp only [if_neg he] at h2 ⊢
    exact absurd (migrate_console_count_zero content ctx h2) he

/-- Claim C2 witness: the theorem applied to a concrete file that already
has a logger import and no matching console statement. -/
theorem c2_witness :
    (process_file_console (lit "import { logger } from \"@/lib/logger\";\nfoo()")
        (lit "ctx")).1 = false :=
  c2_count_zero_marker_unchanged _ _ (by decide) (by decide)

/-- Claim C3 (code bug): on `console.log("hello")` with no existing logger
import, the migration gains the import line but leaves the call unchanged
with zero replacements — pattern 1's alternation omits `log` even though its
own callback maps the level `log` to `debug`, so the claimed rewrite to
`logger.debug("hello", "<context>")` never happens. -/
theorem c3_console_log_not_rewritten :
    (migrate_console_statements
        (add_logger_import (lit "console.log(\"hello\")") loggerPath) (lit "ctx")).1
      = lit "import { logger } from \"@/lib/logger\";\nconsole.log(\"hello\")" ∧
      (migrate_console_statements
          (add_logger_import (lit "console.log(\"hello\")") loggerPath) (lit "ctx")).2 = 0 := by
  decide

/-- Claim C4 counterexample: the auth migration removes the `authOptions`
import-line even though the binding is still referenced by
`const opts = authOptions;` in the post-rewrite text — no re-scan happens. -/
theorem c4_counterexample :
    migrate_auth_rewrite authInputWithRef
      = lit "import { auth } from \"@/lib/auth\";\nconst opts = authOptions;\nconst s = auth();" ∧
      containsSub (migrate_auth_rewrite authInputWithRef) (lit "authOptions") = true ∧
      containsSub (migrate_auth_rewrite authInputWithRef) (lit "import { authOptions }") = false := by
  decide

/-- Claim C4, amended: Step 2 deletes any `authOptions` import from
`@/lib/auth/nextauth` unconditionally, without re-scanning for remaining
references; a file whose only other line still references `authOptions`
loses the import all the same. -/
theorem c4_import_removed_unconditionally :
    migrate_auth_rewrite authInputOnlyRef = lit "export const o = authOptions;" ∧
      containsSub (migrate_auth_rewrite authInputOnlyRef) (lit "authOptions") = true ∧
      containsSub (migrate_auth_rewrite authInputOnlyRef) (lit "import") = false := by
  decide

/-- Claim C5 (code bug): `logger.error("msg", { { x } })` — the script's own
docstring example and the spec's scenario 2 — matches none of the three
fix-logger patterns (pattern 1 demands a comma and further content after the
inner closing brace), so the text is returned unchanged with zero
replacements instead of becoming `logger.error("msg", { x })` with count 1. -/
theorem c5_double_brace_unmatched :
    fix_logger_syntax_fn (lit "logger.error(\"msg\", { { x } })")
      = (lit "logger.error(\"msg\", { { x } })", 0) := by decide

/-- Claim C6 counterexample: on `console.log(foo())` no rewrite rule matches
(zero replacements), yet the pipeline's output differs from the input — the
maintainer of imports unconditionally inserts a logger import line. -/
theorem c6_counterexample :
    process_file_console (lit "console.log(foo())") (lit "ctx") = (true, 0) := by decide

/-- Claim C6, amended: the pure rewrite passes are no-op pure — whenever they
report zero replacements their output is the input, bit for bit; the claim
fails only for the console pipeline taken with its import maintainer, which
can change a zero-match file by inserting the logger import (see the
counterexample). -/
theorem c6_noop_purity_of_rewrite_rules :
    (∀ content : List Char, (fix_logger_syntax_fn content).2 = 0 →
        (fix_logger_syntax_fn content).1 = content) ∧
      (∀ content ctx : List Char, (migrate_console_statements content ctx).2 = 0 →
        (migrate_console_statements content ctx).1 = content) ∧
      (∀ content : List Char, (remove_context_param content).2 = 0 →
        (remove_context_param content).1 = content) := by
  refine ⟨fun content h => fix_logger_count_zero content h,
    fun content ctx h => migrate_console_count_zero content ctx h,
    fun content h => ?_⟩
  simp only [remove_context_param] at h ⊢
  have h1 : (rsub rcPat1 content).2 = 0 := by omega
  have e1 := rsub_count_zero _ _ h1
  rw [e1] at h ⊢
  have h2 : (rsub rcPat2 content).2 = 0 := by omega
  exact rsub_count_zero _ _ h2

/-- Claim C7 counterexample: a file with an unrelated import (providing the
substring `from `) and a local constant named `logger` — but no logger
import-declaration at all — suppresses the insertion: the maintainer returns the text
unchanged on a mere co-occurrence of the two substrings. -/
theorem c7_counterexample :
    add_logger_import mereOccurrenceInput loggerPath = mereOccurrenceInput ∧
      containsSub mereOccurrenceInput (lit "import \x7b logger") = false ∧
      containsSub mereOccurrenceInput (lit "@/lib/logger") = false := by decide

/-- Claim C7, amended: the maintainer leaves the text unchanged exactly when
the substrings `from ` and `logger` both occur anywhere in the file — a
bare co-occurrence check, not a scan for an import of the `logger` binding;
insertion is suppressed by the binding name occurring anywhere alongside any
`from `. -/
theorem c7_suppression_iff_marker (content importPath : List Char) :
    add_logger_import content importPath = content ↔
      (containsSub content (lit "from ") = true ∧
        containsSub content (lit "logger") = true) := by
  constructor
  · intro h
    by_cases hm : hasLoggerImportMarker content = true
    · simpa [hasLoggerImportMarker, Bool.and_eq_true] using hm
    · have hm2 : hasLoggerImportMarker content = false := by
        cases hv : hasLoggerImportMarker content
        · rfl
        · exact absurd hv hm
      have := @marker_of_add_logger_import content importPath hm2
      rw [h] at this
      exact absurd this hm
  · intro h
    exact add_logger_import_of_marker (by simp [hasLoggerImportMarker, h.1, h.2])

/-- Claim C8 counterexample: an existing logger import written without a
space after `from` (legal TypeScript) defeats the substring check, and the
maintainer inserts a second `import { logger } ... @/lib/logger` declaration
for the same binding and module pair. -/
theorem c8_counterexample :
    countSub noSpaceLoggerImport (lit "import { logger } from") = 1 ∧
      countSub noSpaceLoggerImport (lit "@/lib/logger") = 1 ∧
      countSub (add_logger_import noSpaceLoggerImport loggerPath)
          (lit "import { logger } from") = 2 ∧
      countSub (add_logger_import noSpaceLoggerImport loggerPath)
          (lit "@/lib/logger") = 2 := by decide

/-- Claim C8, amended: running the maintainer twice always yields the first
run's output unchanged on the second call, and it never inserts when the
file already contains the exact generated statement for the requested module
(so the standard-form import is never duplicated); only a pre-existing
logger import spelled without a space after `from` escapes the check and is
duplicated (see the counterexample). -/
theorem c8_ensure_imports_idempotent (content importPath : List Char) :
    add_logger_import (add_logger_import content importPath) importPath
        = add_logger_import content importPath ∧
      (containsSub content (importStmtFor importPath) = true →
        add_logger_import content importPath = content) := by
  constructor
  · by_cases hm : hasLoggerImportMarker content = true
    · rw [add_logger_import_of_marker hm, add_logger_import_of_marker hm]
    · have hm2 : hasLoggerImportMarker content = false := by
        cases hv : hasLoggerImportMarker content
        · rfl
        · exact absurd hv hm
      exact add_logger_import_of_marker (marker_of_add_logger_import hm2)
  · intro h
    exact add_logger_import_of_marker
      (marker_of_stmt_sub importPath (infix_of_containsSub h))

/-- Claim C9 counterexample: a file consisting only of a header comment has
no import line and no code line, so the scan never sets an insertion point
and the import is inserted at the very top — before the leading header
comment, not after it. -/
theorem c9_counterexample :
    add_logger_import (lit "// header") loggerPath
      = lit "import { logger } from \"@/lib/logger\";\n// header" := by decide

/-- Claim C9, amended: when an import line exists the new import goes
immediately after the last line starting with `import `; with no imports it
goes before the first non-blank non-comment line; but in a file of only
blank and comment lines it lands at the very top, before the header
comment. -/
theorem c9_insertion_position :
    add_logger_import (lit "import { a } from \"b\";\nconst x = 1;") loggerPath
        = lit "import { a } from \"b\";\nimport { logger } from \"@/lib/logger\";\nconst x = 1;" ∧
      add_logger_import (lit "// hi\nconst x = 1;") loggerPath
        = lit "// hi\nimport { logger } from \"@/lib/logger\";\nconst x = 1;" ∧
      add_logger_import (lit "/* top */\n// note\nrun();") loggerPath
        = lit "/* top */\n// note\nimport { logger } from \"@/lib/logger\";\nrun();" := by decide

/-- Claim C10 counterexample: a second argument that is the empty string
literal is a string literal, yet the call is left unchanged — the pattern's
`[^"\']+` requires at least one character, so not every string-literal
second argument is deleted. -/
theorem c10_counterexample :
    remove_context_param (lit "logger.error(\"msg\", \"\")")
      = (lit "logger.error(\"msg\", \"\")", 0) := by decide

/-- Claim C10, amended: the removal deletes a second string argument without
distinguishing a context tag from any other string — a nonempty,
quote-free literal such as `"user not found"` is deleted, reducing a
two-string call to a single argument, and a context before a metadata
object is deleted likewise; only literals the pattern cannot match (for
example the empty string) survive. -/
theorem c10_second_string_removed :
    remove_context_param (lit "logger.error(\"failed\", \"user not found\")")
        = (lit "logger.error(\"failed\")", 1) ∧
      remove_context_param (lit "logger.warn(\"msg\", \"Context\", { data })")
        = (lit "logger.warn(\"msg\", { data })", 1) := by decide
